import Mathlib

/-!
# Verification of `pygreynoise` (src/pygreynoise/api.py)

A shallow embedding of the pygreynoise client library, together with proofs
settling the specification claims about it.

The embedding models, faithfully to the Python source:

* `GreyNoise._combination` (api.py lines 143-149): the offset-based pagination
  generator over the combination-search endpoint;
* `validate_ip` (lines 33-42): IP validation via C `inet_aton`;
* `validate_date` (lines 24-30): date validation via
  `datetime.datetime.strptime(date, "%Y-%m-%d")`;
* `GreyNoise._query` (lines 111-140): response handling of one HTTP exchange;
* `GreyNoise.__getattr__` together with the `_methods` Box (lines 69-94, 152-154);
* the API-key resolution in `GreyNoise.__init__` (lines 56-66);
* the request body built by the `enterprise.noise.multi` binding (line 90).

Network I/O is mocked: the transport's behaviour (the sequence of responses,
or a raised exception) is a parameter of each model, exactly as a mocked
`requests` session would be in a Python test.
-/

namespace PyGreyNoise

/-! ## Pagination: `GreyNoise._combination` (api.py lines 143-149)

```python
def _combination(self, *query, start=0, iterable=True):
    for i in itertools.count():
        r = self._query('research/combination',
                        data=json.dumps({'query': query, 'offset': (start + i) * 100}))
        if not iterable or r.get('complete', True):
            return r['ips']
        else:
            yield r['ips']
```

Because the body contains `yield`, this function is a generator for *both*
values of `iterable`; a `return r['ips']` inside it terminates the generator
with `StopIteration(r['ips'])`.  The model below describes one full
consumption of that generator against a mocked sequence of
combination-search responses: `yielded` collects the values produced by
`yield` (what a `for` loop over the generator sees), `retVal` is the value
carried by the terminating `return` (discarded by normal iteration), and
`offsets` records the `offset` field of each request actually issued, in
order.  A response is a `CombPage`: the value of its `complete` key
(`none` when the key is absent) and the list under its `ips` key.
An empty remaining response list means the mock is exhausted before the
generator terminated (`retVal = none`); the claims never reach that case. -/

structure CombPage (α : Type) where
  complete : Option Bool
  ips : List α
  deriving DecidableEq, Repr

structure CombOutcome (α : Type) where
  yielded : List (List α)
  retVal : Option (List α)
  offsets : List Nat
  deriving DecidableEq, Repr

def combinationGo (iterable : Bool) (start : Nat) : List (CombPage α) → Nat → CombOutcome α
  | [], _ => ⟨[], none, []⟩
  | r :: rest, i =>
    if !iterable || r.complete.getD true then
      ⟨[], some r.ips, [(start + i) * 100]⟩
    else
      let o := combinationGo iterable start rest (i + 1)
      ⟨r.ips :: o.yielded, o.retVal, (start + i) * 100 :: o.offsets⟩

/-- One full consumption of `GreyNoise._combination(*query, start=start,
iterable=iterable)` against the mocked response sequence `pages`. -/
def combinationRun (iterable : Bool) (start : Nat) (pages : List (CombPage α)) : CombOutcome α :=
  combinationGo iterable start pages 0

/-- The three-page mocked sequence used by the spec's pagination scenarios:
`complete` flags `false, false, true`. -/
def pagesFFT : List (CombPage Nat) :=
  [⟨some false, [1, 2]⟩, ⟨some false, [3]⟩, ⟨some true, [4]⟩]

/-! ## IP validation: `validate_ip` (api.py lines 33-42)

```python
def validate_ip(ip_address, strict=True):
    try:
        socket.inet_aton(ip_address)
        return ip_address
    except socket.error:
        if strict:
            raise ValueError('Invalid IP address')
        return None
```

`socket.inet_aton` is the C library's `inet_aton` (glibc on Linux, where this
library runs).  Its accepted grammar is *not* restricted to dotted-decimal
quads: the input is one to four numeric parts separated by dots, each part a
C numeral (decimal, octal with leading `0`, or hex with leading `0x`/`0X`);
with `n` parts the first `n - 1` must be at most `0xff` and the last must fit
in the remaining `32 - 8*(n-1)` bits.  After the last numeral the input must
end or continue with a whitespace character (in which case the rest is
ignored).  The model below follows glibc's `inet_aton` (dot-parts beyond the
fourth are rejected, each numeral is parsed by maximal munch the way
`strtoul(cp, &end, 0)` does), checked against the behaviour of
`socket.inet_aton` on the platform this library targets. -/

def isDig (c : Char) : Bool := 48 ≤ c.toNat && c.toNat ≤ 57

/-- C `isspace`: the whitespace characters tolerated after the address. -/
def isSpaceC (c : Char) : Bool :=
  c = ' ' || c = '\t' || c = '\n' || c = '\x0b' || c = '\x0c' || c = '\r'

def isOctDig (c : Char) : Bool := 48 ≤ c.toNat && c.toNat ≤ 55

def isHexDig (c : Char) : Bool :=
  ('0' ≤ c && c ≤ '9') || ('a' ≤ c && c ≤ 'f') || ('A' ≤ c && c ≤ 'F')

/-- Numeric value of a decimal or octal digit character. -/
def charVal (c : Char) : Nat := c.toNat - 48

/-- Numeric value of a hexadecimal digit character. -/
def hexVal (c : Char) : Nat :=
  if 'a' ≤ c && c ≤ 'f' then c.toNat - 87
  else if 'A' ≤ c && c ≤ 'F' then c.toNat - 55
  else c.toNat - 48

/-- Maximal munch of digits accepted by `ok`, accumulating a base-`base`
value; returns the value and the unconsumed remainder. -/
def munch (ok : Char → Bool) (dv : Char → Nat) (base : Nat) : Nat → List Char → Nat × List Char
  | acc, [] => (acc, [])
  | acc, c :: cs => if ok c then munch ok dv base (acc * base + dv c) cs else (acc, c :: cs)

/-- One C numeral as parsed by `strtoul(cp, &end, 0)` at the head of the
input, required (as in `inet_aton`) to start with a decimal digit:
`0x`/`0X` prefix selects hexadecimal, a leading `0` selects octal, otherwise
decimal.  Returns the value and the unconsumed remainder. -/
def parseNum : List Char → Option (Nat × List Char)
  | [] => none
  | c :: cs =>
    if !isDig c then none
    else if c = '0' then
      match cs with
      | [] => some (0, [])
      | x :: cs2 =>
        if x = 'x' || x = 'X' then
          match cs2 with
          | [] => some (0, x :: cs2)
          | y :: _ => if isHexDig y then some (munch isHexDig hexVal 16 0 cs2)
                      else some (0, x :: cs2)
        else some (munch isOctDig charVal 8 0 (x :: cs2))
    else some (munch isDig charVal 10 0 (c :: cs))

/-- Final assembly of `inet_aton`: `parts` are the values stored before each
dot (at most three), `val` the value of the last numeral. -/
def assemble (parts : List Nat) (val : Nat) : Option Nat :=
  match parts with
  | [] => some val
  | [a] => if a ≤ 255 && val ≤ 16777215 then some (a * 16777216 + val) else none
  | [a, b] => if a ≤ 255 && b ≤ 255 && val ≤ 65535 then
                some (a * 16777216 + b * 65536 + val) else none
  | [a, b, c] => if a ≤ 255 && b ≤ 255 && c ≤ 255 && val ≤ 255 then
                   some (a * 16777216 + b * 65536 + c * 256 + val) else none
  | _ => none

/-- The numeral/dot loop of `inet_aton`.  The fuel only bounds the recursion
for Lean; since at most three dot-separated parts may be stored before the
final numeral, a fuel of 4 (as supplied by `inet_aton`) is never exhausted. -/
def atonLoop : Nat → List Char → List Nat → Option Nat
  | 0, _, _ => none
  | fuel + 1, s, parts =>
    match parseNum s with
    | none => none
    | some (val, rem) =>
      if 4294967295 < val then none
      else
        match rem with
        | [] => assemble parts val
        | '.' :: rest => if 3 ≤ parts.length then none else atonLoop fuel rest (parts ++ [val])
        | c :: _ => if isSpaceC c then assemble parts val else none

/-- glibc `inet_aton`: `some v` with the parsed 32-bit value on success,
`none` on failure (Python's `socket.inet_aton` raising `socket.error`). -/
def inet_aton (cs : List Char) : Option Nat := atonLoop 4 cs []

/-- `validate_ip` (api.py lines 33-42).  `.ok (some ip)` models returning the
string unchanged, `.ok none` models returning `None`, `.error` models the
raised `ValueError`. -/
def validate_ip (ip : String) (strict : Bool) : Except String (Option String) :=
  match inet_aton ip.data with
  | some _ => .ok (some ip)
  | none => if strict then .error "Invalid IP address" else .ok none

/-! ### The spec's notion of a dotted-decimal IPv4 address

The claims quantify over "valid dotted-decimal IPv4 addresses".  The
following predicate is written from the spec's words, *not* from the source:
four dot-separated parts, each a canonical decimal numeral (no leading zero
unless the part is `0`) with value at most 255. -/

/-- Split a character list at every `'.'` (every occurrence separates;
`n` dots yield `n + 1` parts). -/
def splitDot : List Char → List (List Char)
  | [] => [[]]
  | c :: rest =>
    if c = '.' then [] :: splitDot rest
    else
      match splitDot rest with
      | [] => [[c]]
      | p :: ps => (c :: p) :: ps

/-- Rejoin dot-separated parts; left inverse of `splitDot`. -/
def joinDot : List (List Char) → List Char
  | [] => []
  | p :: ps =>
    match ps with
    | [] => p
    | _ :: _ => p ++ '.' :: joinDot ps

/-- A canonical decimal part of a dotted quad: one to three digits, no
leading zero unless the part is exactly `0`, value at most 255. -/
def decPart : List Char → Bool
  | [c] => isDig c
  | [c1, c2] => (49 ≤ c1.toNat && c1.toNat ≤ 57) && isDig c2
  | [c1, c2, c3] =>
    (49 ≤ c1.toNat && c1.toNat ≤ 57) && isDig c2 && isDig c3 &&
      (100 * charVal c1 + 10 * charVal c2 + charVal c3 ≤ 255)
  | _ => false

/-- Spec-side definition (from the spec's words, for comparison with the
source-derived `validate_ip`): a valid dotted-decimal IPv4 address. -/
def specDottedQuad (s : String) : Bool :=
  match splitDot s.data with
  | [p1, p2, p3, p4] => decPart p1 && decPart p2 && decPart p3 && decPart p4
  | _ => false

/-! ## Date validation: `validate_date` (api.py lines 24-30)

```python
def validate_date(date):
    try:
        datetime.datetime.strptime(date, '%Y-%m-%d')
        return date
    except ValueError:
        raise ValueError('Incorrect data format, should be YYYY-MM-DD')
```

CPython's `_strptime` compiles `'%Y-%m-%d'` to the anchored regular
expression `\d\d\d\d\-(1[0-2]|0[1-9]|[1-9])\-(3[01]|[12]\d|0[1-9]|[1-9])`
and requires it to consume the whole input; so the year is exactly four
digits while month and day may be one *or* two digits.  The matched fields
are then passed to the `datetime.datetime` constructor, which raises
`ValueError` unless `1 <= year` and the day exists in that month of that
(proleptic Gregorian) year.  The functions below model that pipeline. -/

/-- The `%m` two-digit alternatives `1[0-2]|0[1-9]`. -/
def month2 (a b : Char) : Bool :=
  (a = '1' && '0' ≤ b && b ≤ '2') || (a = '0' && '1' ≤ b && b ≤ '9')

/-- The `%d` two-digit alternatives `3[01]|[12]\d|0[1-9]`. -/
def day2 (a b : Char) : Bool :=
  (a = '3' && '0' ≤ b && b ≤ '1') || ((a = '1' || a = '2') && isDig b) ||
    (a = '0' && '1' ≤ b && b ≤ '9')

/-- Match `%d` against the whole remaining input: the two-digit alternatives
first, then the one-digit `[1-9]`. -/
def dayMatch : List Char → Option Nat
  | [a, b] => if day2 a b then some (10 * charVal a + charVal b) else none
  | [a] => if '1' ≤ a && a ≤ '9' then some (charVal a) else none
  | _ => none

/-- Match `%m`, the literal `-` and `%d` against the whole remaining input;
the regex tries the two-digit month alternatives before the one-digit one. -/
def mdMatch (cs : List Char) : Option (Nat × Nat) :=
  (match cs with
   | a :: b :: c :: rest =>
     if c = '-' ∧ month2 a b then
       (dayMatch rest).map (fun d => (10 * charVal a + charVal b, d))
     else none
   | _ => none) <|>
  (match cs with
   | a :: c :: rest =>
     if c = '-' ∧ ('1' ≤ a ∧ a ≤ '9') then (dayMatch rest).map (fun d => (charVal a, d))
     else none
   | _ => none)

/-- Full match of `'%Y-%m-%d'` against the input, yielding the numeric
(year, month, day) fields. -/
def ymdMatch : List Char → Option (Nat × Nat × Nat)
  | y1 :: y2 :: y3 :: y4 :: '-' :: rest =>
    if isDig y1 && isDig y2 && isDig y3 && isDig y4 then
      (mdMatch rest).map
        (fun md => (1000 * charVal y1 + 100 * charVal y2 + 10 * charVal y3 + charVal y4,
                    md.1, md.2))
    else none
  | _ => none

/-- Gregorian leap year, as in `datetime` (`calendar.isleap`). -/
def isLeap (y : Nat) : Bool := y % 4 = 0 && (y % 100 ≠ 0 || y % 400 = 0)

/-- `datetime`'s days-in-month table. -/
def daysInMonth (y m : Nat) : Nat :=
  if m = 2 then (if isLeap y then 29 else 28)
  else if m = 4 || m = 6 || m = 9 || m = 11 then 30
  else 31

/-- `validate_date` (api.py lines 24-30): `.ok` models returning the string
unchanged, `.error` the raised `ValueError`. -/
def validate_date (s : String) : Except String String :=
  match ymdMatch s.data with
  | some (y, m, d) =>
    if 1 ≤ y && d ≤ daysInMonth y m then .ok s
    else .error "Incorrect data format, should be YYYY-MM-DD"
  | none => .error "Incorrect data format, should be YYYY-MM-DD"

/-! ### The spec's notion of a `YYYY-MM-DD` string

Spec-side definitions (from the claim's words: "four-digit year, two-digit
month, two-digit day, dash-separated"), for comparison with the
source-derived `validate_date`. -/

/-- A string of exactly the shape `YYYY-MM-DD` (digits in the positions
shown, dashes between). -/
def ymdShape (s : String) : Bool :=
  match s.data with
  | [y1, y2, y3, y4, c1, m1, m2, c2, d1, d2] =>
    c1 = '-' && c2 = '-' && isDig y1 && isDig y2 && isDig y3 && isDig y4 &&
      isDig m1 && isDig m2 && isDig d1 && isDig d2
  | _ => false

/-- Digit character for `n < 10` (used to build concrete date and IP
strings from numeric fields). -/
def digitChar : Nat → Char
  | 0 => '0' | 1 => '1' | 2 => '2' | 3 => '3' | 4 => '4'
  | 5 => '5' | 6 => '6' | 7 => '7' | 8 => '8' | 9 => '9'
  | _ => '*'

/-- The canonical zero-padded `YYYY-MM-DD` rendering of numeric fields
`y ≤ 9999`, `m ≤ 99`, `d ≤ 99`. -/
def render2 (y m d : Nat) : String :=
  ⟨[digitChar (y / 1000 % 10), digitChar (y / 100 % 10), digitChar (y / 10 % 10),
    digitChar (y % 10), '-', digitChar (m / 10 % 10), digitChar (m % 10), '-',
    digitChar (d / 10 % 10), digitChar (d % 10)]⟩

/-! ## Request execution: `GreyNoise._query` (api.py lines 111-140)

```python
def _query(self, endpoint, query='', params={}, data={}, method='GET'):
    uri = '/'.join([self._BASE_URL, endpoint, query]).strip('/')
    self._log.debug(...)
    try:
        res = requests.request(method, uri, headers={...}, params=params, data=data)
        self._log.debug(...)
        res.raise_for_status()  # Make sure no HTTPError occured
        loaded = res.json()
        if {'error', 'status'} & loaded.keys() and not loaded.get('status') == self._OK:
            raise GreyNoiseError(loaded.get('error', loaded.get('status')))
    except requests.HTTPError as error:
        loaded = res.json()  # For client errors (4xx) we have an JSON body
        raise GreyNoiseError('{msg} ({endpoint}{data})'.format(
            msg=loaded.get('error', loaded.get('status', str(error))),
            endpoint=error.response.url,
            data='' if not data else '[{0}]'.format(data)))
    except Exception as error:  # Wrap & re-raise exceptions
        raise error
    return loaded
```

The decoded JSON body is modelled by `JVal`; one mocked transport exchange
by `HttpAttempt`: either the `requests.request` call raising (a connection
failure — note the final `except Exception` clause re-raises such exceptions
*unchanged*, it defines no transport-error type), or a response with an HTTP
status code and a body (`none` when the body is not JSON, in which case
`res.json()` raises and that exception propagates).  `raise_for_status`
raises `requests.HTTPError` exactly for status codes 400-599.  Errors
escaping `_query` are modelled by `QueryErr`: the two `GreyNoiseError` raise
sites keep the data their messages are built from, and every other exception
is `propagated` unchanged. -/

inductive JVal
  | null
  | bool (b : Bool)
  | num (n : Int)
  | str (s : String)
  | arr (xs : List JVal)
  | obj (kvs : List (String × JVal))

/-- Python `loaded.get(k)` on a decoded JSON object: the value of the first
binding of `k` (`none` when the key is absent; a stored JSON `null` is
`some .null`, as in Python a stored `None` is returned). -/
def jGet (l : JVal) (k : String) : Option JVal :=
  match l with
  | .obj kvs => (kvs.find? (fun p => p.1 == k)).map (fun p => p.2)
  | _ => none

/-- Python `k in loaded.keys()`. -/
def jHasKey (l : JVal) (k : String) : Bool := (jGet l k).isSome

/-- Python `loaded.get('status') == 'ok'`: true exactly when the key holds
the JSON string `"ok"`. -/
def statusIsOk (l : JVal) : Bool :=
  match jGet l "status" with
  | some (.str s) => s == "ok"
  | _ => false

/-- `loaded.get('error', loaded.get('status'))`: the argument of the in-band
`GreyNoiseError`. -/
def errPayload (l : JVal) : Option JVal :=
  match jGet l "error" with
  | some v => some v
  | none => jGet l "status"

/-- One mocked transport exchange. -/
inductive HttpAttempt
  | failure (exc : String)
  | response (code : Nat) (body : Option JVal)

/-- An exception escaping `_query`.  `greyNoise` is the in-band
`GreyNoiseError` raised on a 2xx body whose status is not `"ok"`
(its argument is `errPayload`); `greyNoiseHttp` is the `GreyNoiseError`
raised for an HTTP error status, keeping the pieces its message is formatted
from (`payload = none` stands for the `str(error)` fallback); `propagated`
is any other exception, re-raised unchanged by the final `except` clause. -/
inductive QueryErr
  | greyNoise (payload : Option JVal)
  | greyNoiseHttp (payload : Option JVal) (url : String) (dataPart : String)
  | propagated (exc : String)

/-- Whether an escaping exception is one of the library's own error classes
(`GreyNoiseError` / `GreyNoiseNotFound`, api.py lines 11-21) rather than an
exception of an underlying package. -/
def isLibraryError : QueryErr → Bool
  | .greyNoise _ => true
  | .greyNoiseHttp _ _ _ => true
  | .propagated _ => false

/-- `'' if not data else '[{0}]'.format(data)` in the HTTP-error message. -/
def dataPartOf : Option String → String
  | none => ""
  | some d => "[" ++ d ++ "]"

/-- `str(HTTPError)` fallback of the HTTP-error message:
`loaded.get('error', loaded.get('status', str(error)))`. -/
def httpPayload (l : JVal) : Option JVal :=
  match jGet l "error" with
  | some v => some v
  | none => jGet l "status"

/-- `GreyNoise._query` (api.py lines 111-140) applied to one mocked
transport exchange `t`, with request URL `uri` and request body `dat`
(`none` models the `data={}` default). -/
def queryRun (uri : String) (dat : Option String) (t : HttpAttempt) : Except QueryErr JVal :=
  match t with
  | .failure exc => .error (.propagated exc)
  | .response code body =>
    if 400 ≤ code && code < 600 then
      match body with
      | some l => .error (.greyNoiseHttp (httpPayload l) uri (dataPartOf dat))
      | none => .error (.propagated "requests.exceptions.JSONDecodeError")
    else
      match body with
      | none => .error (.propagated "requests.exceptions.JSONDecodeError")
      | some l =>
        match l with
        | .obj kvs =>
          if (jHasKey (.obj kvs) "error" || jHasKey (.obj kvs) "status") &&
              !statusIsOk (.obj kvs) then
            .error (.greyNoise (errPayload (.obj kvs)))
          else .ok (.obj kvs)
        | _ => .error (.propagated "AttributeError: keys")

/-! ## Endpoint dispatch: `_methods` Box and `__getattr__`
(api.py lines 69-94 and 152-154)

```python
def __getattr__(self, name):
    self._log.debug(name)
    return self._methods[name]
```

`self._methods` is a `box.Box`; indexing or attribute access with a key the
Box does not hold raises the `box` package's `BoxKeyError` (a `KeyError`).
The class `GreyNoiseNotFound` (api.py lines 18-21) is defined but appears
nowhere else in the source.  Attribute access on one of the bound endpoint
callables themselves would raise `AttributeError`; both are exceptions of
kinds the library does not define. -/

inductive MTree
  | func (endpoint : String)
  | dir (children : List (String × MTree))

/-- The `_methods` Box built in `GreyNoise.__init__` (api.py lines 69-94),
with each leaf recording the endpoint path its lambda queries. -/
def methodsBox : MTree :=
  .dir [
    ("research", .dir [
      ("ip", .func "research/ip"),
      ("ja3", .dir [
        ("fingerprint", .func "research/ja3/fingerprint"),
        ("ip", .func "research/ja3/ip")]),
      ("raw", .dir [
        ("ip", .func "research/raw/ip"),
        ("scan", .func "research/raw/scan")]),
      ("tag", .dir [
        ("combination", .func "research/tag/combination"),
        ("list", .func "research/tag/list"),
        ("single", .func "research/tag/single")])]),
    ("enterprise", .dir [
      ("noise", .dir [
        ("bulk", .func "enterprise/noise/bulk"),
        ("context", .func "enterprise/noise/context"),
        ("multi", .func "enterprise/noise/multi/quick"),
        ("quick", .func "enterprise/noise/quick")])])]

/-- An exception raised during dotted-name lookup.  `greyNoiseNotFound` is
the library's own `GreyNoiseNotFound` class — present in the model because
the claim asserts lookups raise it. -/
inductive LookupErr
  | boxKeyError (key : String)
  | attributeError (key : String)
  | greyNoiseNotFound
  deriving DecidableEq

/-- One attribute/index access on a Box node. -/
def boxLookup (t : MTree) (name : String) : Except LookupErr MTree :=
  match t with
  | .dir children =>
    match children.find? (fun p => p.1 == name) with
    | some p => .ok p.2
    | none => .error (.boxKeyError name)
  | .func _ => .error (.attributeError name)

/-- `GreyNoise.__getattr__` (api.py lines 152-154): `self._methods[name]`. -/
def getattrModel (name : String) : Except LookupErr MTree := boxLookup methodsBox name

/-- A dotted logical name resolved segment by segment, the first segment
through `GreyNoise.__getattr__`, the rest through Box attribute access. -/
def lookupDotted (t : MTree) : List String → Except LookupErr MTree
  | [] => .ok t
  | n :: rest =>
    match boxLookup t n with
    | .ok t2 => lookupDotted t2 rest
    | .error e => .error e

/-- Whether the outcome of a lookup is the library's "not found" error. -/
def isNotFoundErr : Except LookupErr MTree → Bool
  | .error .greyNoiseNotFound => true
  | _ => false

/-- Whether a Box `dir` node has a child of the given name. -/
def boxHasKey (t : MTree) (name : String) : Bool :=
  match t with
  | .dir children => children.any (fun p => p.1 == name)
  | .func _ => false

/-! ## API-key resolution in `GreyNoise.__init__` (api.py lines 56-66)

```python
def __init__(self, key=None, store_key=False):
    ...
    # Set the API key, if no API key was specified - try to load it from the
    # configuration file
    config_file = path.join(path.expanduser('~'), '.greynoise')
    config = ConfigParser(default_section='GreyNoise', defaults={'key': key})
    config.read(config_file)
    self.key = config['GreyNoise']['key']
```

With `default_section='GreyNoise'`, the constructor's `defaults={'key': key}`
seeds the parser's *defaults* dictionary with the explicit key, and
`config.read` then writes every option found in the file's `[GreyNoise]`
section into that same defaults dictionary, overwriting the seed.
`config['GreyNoise']['key']` finally reads from the defaults dictionary.
`fileKey` below is the value of the `key` option in the file's `[GreyNoise]`
section (`none` when the file is absent or defines no such option). -/

def resolveKey (explicit : Option String) (fileKey : Option String) : Option String :=
  match fileKey with
  | some k => some k
  | none => explicit

/-! ## The `enterprise.noise.multi` request body (api.py line 90)

```python
'multi': lambda *ips: self._query('enterprise/noise/multi/quick',
             data=json.dumps({'ips': validate_ip(ip) for ip in ips})),
```

`{'ips': validate_ip(ip) for ip in ips}` is a dict *comprehension* whose key
expression is the constant `'ips'`: each iteration validates one argument
(raising on the first invalid one, since `strict` defaults to true) and
rebinds the single key `'ips'` to that argument.  The resulting dictionary
is modelled as an association list built with Python-dict insertion
(overwrite an existing key in place, else append). -/

def dictInsert (d : List (String × Option String)) (k : String) (v : Option String) :
    List (String × Option String) :=
  if d.any (fun p => p.1 == k) then
    d.map (fun p => if p.1 == k then (k, v) else p)
  else d ++ [(k, v)]

def multiBodyGo : List String → List (String × Option String) →
    Except String (List (String × Option String))
  | [], d => .ok d
  | ip :: rest, d =>
    match validate_ip ip true with
    | .error e => .error e
    | .ok v => multiBodyGo rest (dictInsert d "ips" v)

/-- The dictionary passed to `json.dumps` by the `enterprise.noise.multi`
lambda, as a function of its `*ips` arguments (`.error` models the
`ValueError` raised by `validate_ip` on the first invalid argument). -/
def multiBody (ips : List String) : Except String (List (String × Option String)) :=
  multiBodyGo ips []

/-! # Theorems settling the claims -/

/-! ## C1: eager pagination -/

/-- C1, counterexample.  Against the three-page mocked sequence with
`complete` flags `false, false, true`, `_combination(iterable=False)` does
*not* return the concatenation of the three pages' items: it issues a single
request (offset 0 only) and terminates at once with just the first page's
items as the generator's return value, yielding nothing. -/
theorem combination_eager_counterexample :
    (combinationRun false 0 pagesFFT).retVal = some [1, 2] ∧
    (combinationRun false 0 pagesFFT).retVal ≠ some ([1, 2] ++ ([3] ++ [4])) ∧
    (combinationRun false 0 pagesFFT).yielded = [] ∧
    (combinationRun false 0 pagesFFT).offsets = [0] := by
  refine ⟨rfl, ?_, rfl, rfl⟩
  decide

/-- C1, amended: for *every* mocked response sequence, `_combination` with
`iterable=False` issues exactly one request (at the starting offset) and
immediately terminates with only the first page's items as the generator's
return value — the `complete` flags are never consulted and no
concatenation of pages takes place. -/
theorem combination_eager_first_page_only {α : Type} (start : Nat)
    (r : CombPage α) (rest : List (CombPage α)) :
    combinationRun false start (r :: rest) = ⟨[], some r.ips, [start * 100]⟩ := by
  simp [combinationRun, combinationGo]

/-! ## C2: lazy pagination -/

/-- C2, counterexample.  Against the same three-page sequence
(`complete = false, false, true`), lazy iteration yields exactly *two* page
values, not three: the third page's items are only carried on the
terminating `StopIteration` and are discarded by normal iteration.  Three
requests are issued (offsets 0, 100, 200) and none after the complete
page. -/
theorem combination_lazy_counterexample :
    (combinationRun true 0 pagesFFT).yielded = [[1, 2], [3]] ∧
    (combinationRun true 0 pagesFFT).yielded.length ≠ 3 ∧
    (combinationRun true 0 pagesFFT).offsets = [0, 100, 200] := by
  refine ⟨rfl, ?_, rfl⟩
  decide

/-- C2, amended: for every mocked sequence of three pages whose `complete`
flags are `false, false, true`, lazy pagination (`iterable=True`) yields
exactly two page values — the items of the two incomplete pages — issues
exactly three requests, none after the `complete=true` page, and terminates
carrying the third page's items only as the generator's return value. -/
theorem combination_lazy_two_yields {α : Type} (start : Nat) (p1 p2 p3 : CombPage α)
    (h1 : p1.complete = some false) (h2 : p2.complete = some false)
    (h3 : p3.complete = some true) :
    combinationRun true start [p1, p2, p3] =
      ⟨[p1.ips, p2.ips], some p3.ips,
        [start * 100, (start + 1) * 100, (start + 2) * 100]⟩ := by
  simp [combinationRun, combinationGo, h1, h2, h3]

/-- C2 witness: the amended statement at the concrete mocked sequence. -/
theorem combination_lazy_two_yields_witness :
    combinationRun true 0 pagesFFT = ⟨[[1, 2], [3]], some [4], [0, 100, 200]⟩ :=
  combination_lazy_two_yields 0 ⟨some false, [1, 2]⟩ ⟨some false, [3]⟩ ⟨some true, [4]⟩
    rfl rfl rfl

/-! ## C3: absent `complete` key -/

/-- C3, confirmed: a response lacking the `complete` key (`r.get('complete',
True)` evaluates to `True`) terminates pagination in either mode after that
single page: one request is issued, nothing is yielded, and the page's items
become the generator's return value. -/
theorem combination_missing_complete_terminates {α : Type} (iterable : Bool)
    (start : Nat) (r : CombPage α) (rest : List (CombPage α))
    (h : r.complete = none) :
    combinationRun iterable start (r :: rest) = ⟨[], some r.ips, [start * 100]⟩ := by
  simp [combinationRun, combinationGo, h]

/-- C3 witness: a concrete page without a `complete` key, in lazy mode, with
further pages available behind it. -/
theorem combination_missing_complete_terminates_witness :
    combinationRun true 7 [(⟨none, [9]⟩ : CombPage Nat), ⟨some false, [8]⟩] =
      ⟨[], some [9], [700]⟩ :=
  combination_missing_complete_terminates true 7 ⟨none, [9]⟩ [⟨some false, [8]⟩] rfl

/-! ## C6: in-band API errors on HTTP 200 -/

/-- C6, confirmed: on an HTTP 200 response whose JSON body carries a
`status` field different from `"ok"`, `_query` raises `GreyNoiseError`
carrying the body's `error` text; when the body's `status` equals `"ok"`,
the decoded body is returned unchanged. -/
theorem query_inband_status :
    (∀ (uri : String) (dat : Option String) (kvs : List (String × JVal)) (st e : String),
      jGet (.obj kvs) "status" = some (.str st) → st ≠ "ok" →
      jGet (.obj kvs) "error" = some (.str e) →
      queryRun uri dat (.response 200 (some (.obj kvs))) =
        .error (.greyNoise (some (.str e)))) ∧
    (∀ (uri : String) (dat : Option String) (kvs : List (String × JVal)),
      jGet (.obj kvs) "status" = some (.str "ok") →
      queryRun uri dat (.response 200 (some (.obj kvs))) = .ok (.obj kvs)) := by
  constructor
  · intro uri dat kvs st e hst hne herr
    simp [queryRun, jHasKey, statusIsOk, errPayload, hst, herr, hne]
  · intro uri dat kvs hst
    simp [queryRun, jHasKey, statusIsOk, hst]

/-- C6 witness: the spec's two mocked 200-responses,
`{"status": "error", "error": "bad key"}` and `{"status": "ok", "ips": []}`. -/
theorem query_inband_status_witness :
    queryRun "https://research.api.greynoise.io/v2/research/ip/1.2.3.4" none
        (.response 200 (some (.obj [("status", .str "error"), ("error", .str "bad key")]))) =
      .error (.greyNoise (some (.str "bad key"))) ∧
    queryRun "https://research.api.greynoise.io/v2/research/ip/1.2.3.4" none
        (.response 200 (some (.obj [("status", .str "ok"), ("ips", .arr [])]))) =
      .ok (.obj [("status", .str "ok"), ("ips", .arr [])]) :=
  ⟨query_inband_status.1 _ none _ "error" "bad key" rfl (by decide) rfl,
   query_inband_status.2 _ none _ rfl⟩

/-! ## C7: transport failures -/

/-- C7, counterexample.  When the underlying `requests` call raises (no HTTP
response), `_query` does not wrap the failure in any library-defined error:
the final `except Exception as error: raise error` clause re-raises the
underlying exception unchanged, and the library defines no `TransportError`
class at all (its only error classes are `GreyNoiseError` and the never-used
`GreyNoiseNotFound`). -/
theorem query_transport_counterexample :
    queryRun "https://research.api.greynoise.io/v2/research/ip/1.2.3.4" none
        (.failure "requests.exceptions.ConnectionError") =
      .error (.propagated "requests.exceptions.ConnectionError") ∧
    isLibraryError (.propagated "requests.exceptions.ConnectionError") = false :=
  ⟨rfl, rfl⟩

/-- C7, amended: on transport failure `_query` fails by re-raising the
underlying transport exception unchanged; that exception is not one of the
library's error classes, so it remains distinct from the `GreyNoiseError`
raised for HTTP-status or in-band API errors, but no library-defined
`TransportError` exists. -/
theorem query_transport_propagates (uri : String) (dat : Option String) (exc : String) :
    queryRun uri dat (.failure exc) = .error (.propagated exc) ∧
    isLibraryError (.propagated exc) = false :=
  ⟨rfl, rfl⟩

/-! ## C8: unknown endpoint names -/

/-- Every single Box access either succeeds or raises `BoxKeyError`
(for a missing key on a Box) or `AttributeError` (for attribute access on a
bound endpoint function) — never the library's `GreyNoiseNotFound`. -/
theorem boxLookup_shape (t : MTree) (n : String) :
    (∃ t2, boxLookup t n = .ok t2) ∨ boxLookup t n = .error (.boxKeyError n) ∨
      boxLookup t n = .error (.attributeError n) := by
  cases t with
  | func e => right; right; rfl
  | dir ch =>
    cases h : ch.find? (fun p => p.1 == n) with
    | none => right; left; simp [boxLookup, h]
    | some p => exact Or.inl ⟨p.2, by simp [boxLookup, h]⟩

/-- C8, counterexample.  Looking up a name absent from the endpoint table
(here the attribute access `gn.actors`) raises the `box` package's
`BoxKeyError`, not the library's `GreyNoiseNotFound`. -/
theorem getattr_unknown_counterexample :
    getattrModel "actors" = .error (.boxKeyError "actors") ∧
    LookupErr.boxKeyError "actors" ≠ LookupErr.greyNoiseNotFound := by
  refine ⟨rfl, ?_⟩
  decide

/-- C8, amended: attribute lookup of a name not in the endpoint table fails
with the Box library's `BoxKeyError` rather than succeeding, and no dotted
lookup whatsoever can produce the library's "not found" error —
`GreyNoiseNotFound` is defined in api.py but never raised. -/
theorem getattr_unknown_box_keyerror :
    (∀ name : String, boxHasKey methodsBox name = false →
      getattrModel name = .error (.boxKeyError name)) ∧
    (∀ path : List String, isNotFoundErr (lookupDotted methodsBox path) = false) := by
  have hdir : ∀ (ch : List (String × MTree)) (name : String),
      (ch.any (fun p => p.1 == name)) = false →
      boxLookup (.dir ch) name = .error (.boxKeyError name) := by
    intro ch name hno
    cases hfind : ch.find? (fun p => p.1 == name) with
    | none => simp [boxLookup, hfind]
    | some p =>
      exfalso
      have hp := List.find?_some hfind
      have hmem := List.mem_of_find?_eq_some hfind
      have hany : ch.any (fun q => q.1 == name) = true := List.any_eq_true.mpr ⟨p, hmem, hp⟩
      rw [hany] at hno
      cases hno
  constructor
  · intro name hno
    exact hdir _ name hno
  · intro path
    suffices h : ∀ (t : MTree) (path : List String),
        isNotFoundErr (lookupDotted t path) = false from h methodsBox path
    intro t path
    induction path generalizing t with
    | nil => rfl
    | cons n rest ih =>
      rcases boxLookup_shape t n with ⟨t2, hb⟩ | hb | hb
      · simp [lookupDotted, hb, ih]
      · simp [lookupDotted, hb, isNotFoundErr]
      · simp [lookupDotted, hb, isNotFoundErr]

/-- C8 witness: the amended statement at the concrete unknown name
`actors` and the concrete dotted path `research.ja3.missing`. -/
theorem getattr_unknown_box_keyerror_witness :
    getattrModel "actors" = .error (.boxKeyError "actors") ∧
    isNotFoundErr (lookupDotted methodsBox ["research", "ja3", "missing"]) = false :=
  ⟨getattr_unknown_box_keyerror.1 "actors" (by decide),
   getattr_unknown_box_keyerror.2 ["research", "ja3", "missing"]⟩

/-! ## C9: explicit key versus configuration-file key -/

/-- C9: the code evaluated at the failing input.  With an explicit key
`"explicit-key"` and a configuration file whose `[GreyNoise]` section
defines `key = file-key`, `GreyNoise.__init__` stores the *file's* key: the
file's default-section options overwrite the constructor-supplied default.
The explicit key survives only when the file defines no key, while the
code's own comment ("Set the API key, if no API key was specified - try to
load it from the configuration file") promises the opposite precedence. -/
theorem resolveKey_file_overrides :
    resolveKey (some "explicit-key") (some "file-key") = some "file-key" ∧
    resolveKey (some "explicit-key") (some "file-key") ≠ some "explicit-key" ∧
    resolveKey (some "explicit-key") none = some "explicit-key" ∧
    resolveKey none (some "file-key") = some "file-key" := by
  refine ⟨rfl, ?_, rfl, rfl⟩
  decide

/-! ## C10: the `enterprise.noise.multi` body keeps only the last IP -/

/-- When every argument is accepted by `inet_aton`, the comprehension just
folds `dictInsert _ "ips" _` over the arguments. -/
theorem multiBodyGo_all_valid (xs : List String) (d : List (String × Option String))
    (h : ∀ ip ∈ xs, (inet_aton ip.data).isSome = true) :
    multiBodyGo xs d =
      .ok (xs.foldl (fun d ip => dictInsert d "ips" (some ip)) d) := by
  induction xs generalizing d with
  | nil => rfl
  | cons ip rest ih =>
    obtain ⟨v, hv⟩ := Option.isSome_iff_exists.mp (h ip (List.mem_cons_self ip rest))
    simp only [multiBodyGo, validate_ip, hv, List.foldl_cons]
    exact ih _ (fun x hx => h x (List.mem_cons_of_mem _ hx))

/-- Folding insertions of the single key `ips` over a one-entry dictionary
only ever rebinds that entry. -/
theorem foldl_dictInsert_ips (xs : List String) (v : Option String) :
    xs.foldl (fun d ip => dictInsert d "ips" (some ip)) [("ips", v)] =
      [("ips", xs.foldl (fun _ ip => some ip) v)] := by
  induction xs generalizing v with
  | nil => rfl
  | cons ip rest ih =>
    have h1 : dictInsert [("ips", v)] "ips" (some ip) = [("ips", some ip)] := by
      simp [dictInsert]
    rw [List.foldl_cons, h1, ih, List.foldl_cons]

/-- C10, confirmed: for every call of `enterprise.noise.multi` with one or
more (valid) IP arguments, the dictionary serialized into the request body
holds the single key `ips` bound to the *last* argument alone — the dict
comprehension rebinds `'ips'` on each iteration, so all earlier arguments
are dropped. -/
theorem multi_body_last_ip_only (l : List String) (x : String)
    (hall : ∀ ip ∈ l, (inet_aton ip.data).isSome = true)
    (hx : (inet_aton x.data).isSome = true) :
    multiBody (l ++ [x]) = .ok [("ips", some x)] := by
  have hboth : ∀ ip ∈ l ++ [x], (inet_aton ip.data).isSome = true := by
    intro ip hip
    rcases List.mem_append.mp hip with hl | hr
    · exact hall ip hl
    · rcases List.mem_singleton.mp hr with rfl
      exact hx
  rw [multiBody, multiBodyGo_all_valid (l ++ [x]) [] hboth]
  congr 1
  rw [List.foldl_append]
  cases l with
  | nil => rfl
  | cons a rest =>
    have h0 : dictInsert [] "ips" (some a) = [("ips", some a)] := rfl
    simp only [List.foldl_cons, h0, foldl_dictInsert_ips, List.foldl_nil]
    simp [dictInsert]

/-- C10 witness: three valid IPs; only the last survives in the body. -/
theorem multi_body_last_ip_only_witness :
    multiBody ["1.2.3.4", "8.8.8.8", "9.9.9.9"] = .ok [("ips", some "9.9.9.9")] :=
  multi_body_last_ip_only ["1.2.3.4", "8.8.8.8"] "9.9.9.9" (by decide) (by decide)

/-! ## C4: IP validation -/

/-- `splitDot` never returns an empty part list, and `joinDot` undoes it. -/
theorem joinDot_splitDot (cs : List Char) :
    splitDot cs ≠ [] ∧ joinDot (splitDot cs) = cs := by
  induction cs with
  | nil => exact ⟨by simp [splitDot], rfl⟩
  | cons c rest ih =>
    obtain ⟨hne, hj⟩ := ih
    by_cases hc : c = '.'
    · subst hc
      refine ⟨by simp [splitDot], ?_⟩
      cases hsp : splitDot rest with
      | nil => exact absurd hsp hne
      | cons q qs =>
        rw [hsp] at hj
        simp [splitDot, hsp, joinDot, hj]
    · cases hsp : splitDot rest with
      | nil => exact absurd hsp hne
      | cons q qs =>
        rw [hsp] at hj
        refine ⟨by simp [splitDot, hc, hsp], ?_⟩
        cases qs with
        | nil =>
          simp only [joinDot] at hj
          simp [splitDot, hc, hsp, joinDot, hj]
        | cons q2 qs2 =>
          simp only [joinDot] at hj
          simp [splitDot, hc, hsp, joinDot, hj]

/-- A digit character is not `'0'` when its code is at least 49. -/
theorem ne_zero_char_of_49 (c : Char) (h : 49 ≤ c.toNat) : ¬(c = '0') := by
  intro hc
  subst hc
  exact absurd h (by decide)

/-- `munch` over the decimal digits stops at a dot or at the end. -/
theorem munch_stop (acc : Nat) (rest : List Char)
    (hrest : rest = [] ∨ ∃ r, rest = '.' :: r) :
    munch isDig charVal 10 acc rest = (acc, rest) := by
  rcases hrest with rfl | ⟨r, rfl⟩
  · rfl
  · simp [munch, isDig]

/-- Parsing a canonical decimal part followed by a dot (or the end of the
input): `parseNum` consumes exactly the part and yields its value, which is
at most 255. -/
theorem parseNum_decPart (p rest : List Char) (hp : decPart p = true)
    (hrest : rest = [] ∨ ∃ r, rest = '.' :: r) :
    ∃ v, v ≤ 255 ∧ parseNum (p ++ rest) = some (v, rest) := by
  match p with
  | [] => exact absurd hp (by simp [decPart])
  | [c] =>
    simp only [decPart, isDig, Bool.and_eq_true, decide_eq_true_eq] at hp
    by_cases hc : c = '0'
    · subst hc
      refine ⟨0, by omega, ?_⟩
      rcases hrest with rfl | ⟨r, rfl⟩
      · simp [parseNum, isDig]
      · simp [parseNum, isDig, munch, isOctDig]
    · refine ⟨charVal c, by simp only [charVal]; omega, ?_⟩
      have hdig : isDig c = true := by
        simp only [isDig, Bool.and_eq_true, decide_eq_true_eq]
        omega
      have e1 : parseNum (c :: rest) = some (munch isDig charVal 10 0 (c :: rest)) := by
        simp [parseNum, hdig, hc]
      have e2 : munch isDig charVal 10 0 (c :: rest) = (charVal c, rest) := by
        simp only [munch, hdig, if_true]
        simpa using munch_stop (charVal c) rest hrest
      simpa [e2] using e1
  | [c1, c2] =>
    simp only [decPart, isDig, Bool.and_eq_true, decide_eq_true_eq] at hp
    have hdig1 : isDig c1 = true := by
      simp only [isDig, Bool.and_eq_true, decide_eq_true_eq]
      omega
    have hdig2 : isDig c2 = true := by
      simp only [isDig, Bool.and_eq_true, decide_eq_true_eq]
      omega
    have hne : ¬(c1 = '0') := ne_zero_char_of_49 c1 (by omega)
    refine ⟨10 * charVal c1 + charVal c2, by simp only [charVal]; omega, ?_⟩
    have e1 : parseNum (c1 :: c2 :: rest) =
        some (munch isDig charVal 10 0 (c1 :: c2 :: rest)) := by
      simp [parseNum, hdig1, hne]
    have e2 : munch isDig charVal 10 0 (c1 :: c2 :: rest) =
        (10 * charVal c1 + charVal c2, rest) := by
      simp only [munch, hdig1, hdig2, if_true]
      rw [munch_stop _ rest hrest]
      congr 1
      ring
    simpa [e2] using e1
  | [c1, c2, c3] =>
    simp only [decPart, isDig, Bool.and_eq_true, decide_eq_true_eq] at hp
    have hdig1 : isDig c1 = true := by
      simp only [isDig, Bool.and_eq_true, decide_eq_true_eq]
      omega
    have hdig2 : isDig c2 = true := by
      simp only [isDig, Bool.and_eq_true, decide_eq_true_eq]
      omega
    have hdig3 : isDig c3 = true := by
      simp only [isDig, Bool.and_eq_true, decide_eq_true_eq]
      omega
    have hne : ¬(c1 = '0') := ne_zero_char_of_49 c1 (by omega)
    refine ⟨100 * charVal c1 + 10 * charVal c2 + charVal c3,
      by simp only [charVal] at hp ⊢; omega, ?_⟩
    have e1 : parseNum (c1 :: c2 :: c3 :: rest) =
        some (munch isDig charVal 10 0 (c1 :: c2 :: c3 :: rest)) := by
      simp [parseNum, hdig1, hne]
    have e2 : munch isDig charVal 10 0 (c1 :: c2 :: c3 :: rest) =
        (100 * charVal c1 + 10 * charVal c2 + charVal c3, rest) := by
      simp only [munch, hdig1, hdig2, hdig3, if_true]
      rw [munch_stop _ rest hrest]
      congr 1
      ring
    simpa [e2] using e1
  | c1 :: c2 :: c3 :: c4 :: t => exact absurd hp (by simp [decPart])

/-- The numeral/dot loop consumes one part and its following dot. -/
theorem atonLoop_step (fuel : Nat) (p R : List Char) (parts : List Nat) (v : Nat)
    (he : parseNum (p ++ '.' :: R) = some (v, '.' :: R)) (hv : v ≤ 255)
    (hlen : parts.length < 3) :
    atonLoop (fuel + 1) (p ++ '.' :: R) parts = atonLoop fuel R (parts ++ [v]) := by
  simp only [atonLoop, he]
  rw [if_neg (by omega)]
  show (if 3 ≤ parts.length then (none : Option Nat) else atonLoop fuel R (parts ++ [v])) =
    atonLoop fuel R (parts ++ [v])
  rw [if_neg (by omega)]

/-- The numeral/dot loop assembles the address after the last part. -/
theorem atonLoop_last (fuel : Nat) (p : List Char) (parts : List Nat) (v : Nat)
    (he : parseNum p = some (v, [])) (hv : v ≤ 255) :
    atonLoop (fuel + 1) p parts = assemble parts v := by
  simp only [atonLoop, he]
  rw [if_neg (by omega)]

/-- Every canonical dotted-decimal IPv4 string is accepted by `inet_aton`. -/
theorem specDottedQuad_aton (s : String) (hq : specDottedQuad s = true) :
    ∃ w, inet_aton s.data = some w := by
  unfold specDottedQuad at hq
  obtain ⟨hne, hj⟩ := joinDot_splitDot s.data
  cases hsp : splitDot s.data with
  | nil => rw [hsp] at hq; exact absurd hq (by simp)
  | cons p1 t1 =>
    cases t1 with
    | nil => rw [hsp] at hq; exact absurd hq (by simp)
    | cons p2 t2 =>
      cases t2 with
      | nil => rw [hsp] at hq; exact absurd hq (by simp)
      | cons p3 t3 =>
        cases t3 with
        | nil => rw [hsp] at hq; exact absurd hq (by simp)
        | cons p4 t4 =>
          cases t4 with
          | cons p5 t5 => rw [hsp] at hq; exact absurd hq (by simp)
          | nil =>
            rw [hsp] at hq hj
            simp only [joinDot] at hj
            obtain ⟨⟨⟨hp1, hp2⟩, hp3⟩, hp4⟩ :
                ((decPart p1 = true ∧ decPart p2 = true) ∧ decPart p3 = true) ∧
                  decPart p4 = true := by simpa using hq
            obtain ⟨v1, hv1, he1⟩ :=
              parseNum_decPart p1 ('.' :: (p2 ++ '.' :: (p3 ++ '.' :: p4))) hp1 (Or.inr ⟨_, rfl⟩)
            obtain ⟨v2, hv2, he2⟩ :=
              parseNum_decPart p2 ('.' :: (p3 ++ '.' :: p4)) hp2 (Or.inr ⟨_, rfl⟩)
            obtain ⟨v3, hv3, he3⟩ := parseNum_decPart p3 ('.' :: p4) hp3 (Or.inr ⟨_, rfl⟩)
            obtain ⟨v4, hv4, he4⟩ := parseNum_decPart p4 [] hp4 (Or.inl rfl)
            rw [List.append_nil] at he4
            have h4 : inet_aton (p1 ++ '.' :: (p2 ++ '.' :: (p3 ++ '.' :: p4))) =
                atonLoop 3 (p2 ++ '.' :: (p3 ++ '.' :: p4)) [v1] :=
              atonLoop_step 3 p1 _ [] v1 he1 hv1 (by simp)
            have h3 : atonLoop 3 (p2 ++ '.' :: (p3 ++ '.' :: p4)) [v1] =
                atonLoop 2 (p3 ++ '.' :: p4) [v1, v2] :=
              atonLoop_step 2 p2 _ [v1] v2 he2 hv2 (by simp)
            have h2 : atonLoop 2 (p3 ++ '.' :: p4) [v1, v2] =
                atonLoop 1 p4 [v1, v2, v3] :=
              atonLoop_step 1 p3 _ [v1, v2] v3 he3 hv3 (by simp)
            have h1 : atonLoop 1 p4 [v1, v2, v3] = assemble [v1, v2, v3] v4 :=
              atonLoop_last 0 p4 [v1, v2, v3] v4 he4 hv4
            rw [← hj, h4, h3, h2, h1]
            refine ⟨v1 * 16777216 + v2 * 65536 + v3 * 256 + v4, ?_⟩
            simp only [assemble]
            rw [if_pos]
            simp only [Bool.and_eq_true, decide_eq_true_eq]
            omega

/-- C4, counterexample.  `"127.1"` is not a dotted-decimal IPv4 address, yet
`validate_ip` (via `inet_aton`, which also accepts the two-part numeric
form) returns it unchanged instead of raising under `strict=True`. -/
theorem validate_ip_counterexample :
    specDottedQuad "127.1" = false ∧
    validate_ip "127.1" true = .ok (some "127.1") := ⟨rfl, rfl⟩

/-- C4, amended: `validate_ip` accepts exactly the strings accepted by
`inet_aton` — a strictly larger language than the dotted-decimal quads.
Every canonical dotted-decimal IPv4 string is returned unchanged, and every
string `inet_aton` rejects raises `ValueError` under `strict=True` and
returns `None` under `strict=False`; but some non-dotted-quad strings (such
as `"127.1"`) are accepted as well. -/
theorem validate_ip_amended :
    (∀ s : String, specDottedQuad s = true → validate_ip s true = .ok (some s)) ∧
    (∀ s : String, inet_aton s.data = none →
      validate_ip s true = .error "Invalid IP address" ∧
        validate_ip s false = .ok none) := by
  constructor
  · intro s hq
    obtain ⟨w, hw⟩ := specDottedQuad_aton s hq
    simp [validate_ip, hw]
  · intro s hn
    simp [validate_ip, hn]

/-- C4 witness: the amended statement at a concrete dotted quad and at a
concrete rejected string. -/
theorem validate_ip_amended_witness :
    (specDottedQuad "192.168.0.254" = true ∧
      validate_ip "192.168.0.254" true = .ok (some "192.168.0.254")) ∧
    (inet_aton "birds".data = none ∧
      validate_ip "birds" true = .error "Invalid IP address" ∧
      validate_ip "birds" false = .ok none) :=
  ⟨⟨rfl, validate_ip_amended.1 "192.168.0.254" rfl⟩,
   ⟨rfl, validate_ip_amended.2 "birds" rfl⟩⟩

/-! ## C5: date validation -/

theorem isDig_digitChar (n : Nat) (h : n < 10) : isDig (digitChar n) = true := by
  interval_cases n <;> decide

theorem charVal_digitChar (n : Nat) (h : n < 10) : charVal (digitChar n) = n := by
  interval_cases n <;> decide

theorem digitChar_ne_dash (n : Nat) (h : n < 10) : ¬(digitChar n = '-') := by
  interval_cases n <;> decide

/-- The two-digit `%m` alternatives match a rendered two-digit field exactly
when its value is a month number. -/
theorem month2_digit_iff (q r : Nat) (hq : q < 10) (hr : r < 10) :
    month2 (digitChar q) (digitChar r) = true ↔ (1 ≤ 10 * q + r ∧ 10 * q + r ≤ 12) := by
  interval_cases q <;> interval_cases r <;> decide

/-- The two-digit `%d` alternatives match a rendered two-digit field exactly
when its value is between 1 and 31. -/
theorem day2_digit_iff (q r : Nat) (hq : q < 10) (hr : r < 10) :
    day2 (digitChar q) (digitChar r) = true ↔ (1 ≤ 10 * q + r ∧ 10 * q + r ≤ 31) := by
  interval_cases q <;> interval_cases r <;> decide

theorem daysInMonth_le_31 (y m : Nat) : daysInMonth y m ≤ 31 := by
  unfold daysInMonth
  split_ifs <;> omega

theorem dayMatch_render (dq dr : Nat) (hq : dq < 10) (hr : dr < 10) :
    dayMatch [digitChar dq, digitChar dr] =
      if 1 ≤ 10 * dq + dr ∧ 10 * dq + dr ≤ 31 then some (10 * dq + dr) else none := by
  by_cases h : 1 ≤ 10 * dq + dr ∧ 10 * dq + dr ≤ 31
  · rw [if_pos h]
    simp only [dayMatch]
    rw [if_pos ((day2_digit_iff dq dr hq hr).mpr h), charVal_digitChar dq hq,
      charVal_digitChar dr hr]
  · rw [if_neg h]
    simp only [dayMatch]
    rw [if_neg (fun hh => h ((day2_digit_iff dq dr hq hr).mp hh))]

theorem mdMatch_render (mq mr dq dr : Nat) (hmq : mq < 10) (hmr : mr < 10)
    (hdq : dq < 10) (hdr : dr < 10) :
    mdMatch [digitChar mq, digitChar mr, '-', digitChar dq, digitChar dr] =
      if (1 ≤ 10 * mq + mr ∧ 10 * mq + mr ≤ 12) ∧ (1 ≤ 10 * dq + dr ∧ 10 * dq + dr ≤ 31)
      then some (10 * mq + mr, 10 * dq + dr) else none := by
  by_cases hm : 1 ≤ 10 * mq + mr ∧ 10 * mq + mr ≤ 12
  · have hm2 := (month2_digit_iff mq mr hmq hmr).mpr hm
    by_cases hd : 1 ≤ 10 * dq + dr ∧ 10 * dq + dr ≤ 31
    · rw [if_pos ⟨hm, hd⟩]
      simp [mdMatch, hm2, dayMatch_render dq dr hdq hdr, hd,
        charVal_digitChar mq hmq, charVal_digitChar mr hmr]
    · rw [if_neg (show ¬((1 ≤ 10 * mq + mr ∧ 10 * mq + mr ≤ 12) ∧
          (1 ≤ 10 * dq + dr ∧ 10 * dq + dr ≤ 31)) from fun hh => hd hh.2)]
      simp [mdMatch, hm2, dayMatch_render dq dr hdq hdr, hd, digitChar_ne_dash mr hmr]
  · have hm2 : ¬(month2 (digitChar mq) (digitChar mr) = true) :=
      fun hh => hm ((month2_digit_iff mq mr hmq hmr).mp hh)
    rw [if_neg (show ¬((1 ≤ 10 * mq + mr ∧ 10 * mq + mr ≤ 12) ∧
        (1 ≤ 10 * dq + dr ∧ 10 * dq + dr ≤ 31)) from fun hh => hm hh.1)]
    simp [mdMatch, hm2, digitChar_ne_dash mr hmr]

/-- Full behaviour of the `%Y-%m-%d` match on the canonical zero-padded
rendering of `(y, m, d)`. -/
theorem ymdMatch_render2 (y m d : Nat) (hy : y ≤ 9999) (hm : m ≤ 99) (hd : d ≤ 99) :
    ymdMatch (render2 y m d).data =
      if (1 ≤ m ∧ m ≤ 12) ∧ (1 ≤ d ∧ d ≤ 31) then some (y, m, d) else none := by
  have i1 := isDig_digitChar (y / 1000 % 10) (by omega)
  have i2 := isDig_digitChar (y / 100 % 10) (by omega)
  have i3 := isDig_digitChar (y / 10 % 10) (by omega)
  have i4 := isDig_digitChar (y % 10) (by omega)
  have c1 := charVal_digitChar (y / 1000 % 10) (by omega)
  have c2 := charVal_digitChar (y / 100 % 10) (by omega)
  have c3 := charVal_digitChar (y / 10 % 10) (by omega)
  have c4 := charVal_digitChar (y % 10) (by omega)
  have hmv : 10 * (m / 10 % 10) + m % 10 = m := by omega
  have hdv : 10 * (d / 10 % 10) + d % 10 = d := by omega
  have hyv : 1000 * (y / 1000 % 10) + 100 * (y / 100 % 10) + 10 * (y / 10 % 10) + y % 10 = y := by
    omega
  have hmd := mdMatch_render (m / 10 % 10) (m % 10) (d / 10 % 10) (d % 10)
    (by omega) (by omega) (by omega) (by omega)
  rw [hmv, hdv] at hmd
  rw [show (render2 y m d).data = [digitChar (y / 1000 % 10), digitChar (y / 100 % 10),
      digitChar (y / 10 % 10), digitChar (y % 10), '-', digitChar (m / 10 % 10),
      digitChar (m % 10), '-', digitChar (d / 10 % 10), digitChar (d % 10)] from rfl]
  simp [ymdMatch, i1, i2, i3, i4, hmd, apply_ite, c1, c2, c3, c4, hyv]
  split_ifs with h
  · omega
  · intro h1 h2 h3
    omega

/-- C5, counterexample.  `"2018-02-30"` has exactly the `YYYY-MM-DD` shape
(four-digit year, two-digit month, two-digit day, dash-separated), yet
`validate_date` raises: `strptime` also validates the calendar, and February
has no 30th day. -/
theorem validate_date_counterexample :
    ymdShape "2018-02-30" = true ∧
    validate_date "2018-02-30" = .error "Incorrect data format, should be YYYY-MM-DD" :=
  ⟨rfl, rfl⟩

/-- C5, amended: `validate_date` accepts exactly the strings that parse
under `strptime('%Y-%m-%d')` as real calendar dates.  A `YYYY-MM-DD`-shaped
string (the canonical zero-padded rendering of fields `y-m-d`) is returned
unchanged *iff* its fields form a valid proleptic-Gregorian calendar date
(`1 ≤ y`, `1 ≤ m ≤ 12`, `1 ≤ d ≤` the length of that month); moreover the
format also admits one-digit months and days, so some strings *not* of the
`YYYY-MM-DD` shape (such as `"2018-1-1"`) are accepted rather than
raising. -/
theorem validate_date_amended :
    (∀ y m d : Nat, y ≤ 9999 → m ≤ 99 → d ≤ 99 →
      (validate_date (render2 y m d) = .ok (render2 y m d) ↔
        (1 ≤ y ∧ 1 ≤ m ∧ m ≤ 12 ∧ 1 ≤ d ∧ d ≤ daysInMonth y m))) ∧
    (validate_date "2018-1-1" = .ok "2018-1-1" ∧ ymdShape "2018-1-1" = false) := by
  constructor
  · intro y m d hy hm hd
    rw [validate_date, ymdMatch_render2 y m d hy hm hd]
    by_cases hc : (1 ≤ m ∧ m ≤ 12) ∧ (1 ≤ d ∧ d ≤ 31)
    · rw [if_pos hc]
      show (if 1 ≤ y && d ≤ daysInMonth y m then Except.ok (render2 y m d)
            else Except.error "Incorrect data format, should be YYYY-MM-DD") =
          Except.ok (render2 y m d) ↔ _
      by_cases hv : 1 ≤ y ∧ d ≤ daysInMonth y m
      · rw [if_pos (by simp only [Bool.and_eq_true, decide_eq_true_eq]; exact hv)]
        exact ⟨fun _ => ⟨hv.1, hc.1.1, hc.1.2, hc.2.1, hv.2⟩, fun _ => rfl⟩
      · rw [if_neg (by simp only [Bool.and_eq_true, decide_eq_true_eq]; exact hv)]
        constructor
        · intro hok
          exact absurd hok (by simp)
        · intro hr
          exact absurd ⟨hr.1, hr.2.2.2.2⟩ hv
    · rw [if_neg hc]
      show Except.error "Incorrect data format, should be YYYY-MM-DD" =
          Except.ok (render2 y m d) ↔ _
      constructor
      · intro hok
        exact absurd hok (by simp)
      · intro hr
        exact absurd ⟨⟨hr.2.1, hr.2.2.1⟩, hr.2.2.2.1,
          le_trans hr.2.2.2.2 (daysInMonth_le_31 y m)⟩ hc
  · exact ⟨rfl, rfl⟩

/-- C5 witness: the amended statement at the concrete valid date
`2019-06-15`. -/
theorem validate_date_amended_witness :
    validate_date (render2 2019 6 15) = .ok (render2 2019 6 15) ∧
    render2 2019 6 15 = "2019-06-15" :=
  ⟨(validate_date_amended.1 2019 6 15 (by omega) (by omega) (by omega)).mpr
      ⟨by omega, by omega, by omega, by omega, by decide⟩,
   rfl⟩

end PyGreyNoise
